import Mathlib

/-!
Verification of the tunnel-backed connection lifecycle of the
terraform-provider-cockroach repository.

The Go sources under `internal/provider` are shallowly embedded here:
pure string manipulation (`strings.Replace`, `pq.QuoteIdentifier`,
`fmt.Sprintf` of the connection template) becomes Lean functions on
`String`/`List Char`; each CRUD handler becomes a Lean function from its
attributes and an oracle of external-call results (pgx connect / ping /
exec / query, `d.Set`) to an outcome plus a trace of the effects it
performed, in source order.  The body of `tryPortForwardIfNeeded` is not
among the repository files available here (only its call sites are), so it
is modelled from the spec where noted.
-/

namespace Crdb

/-- One non-overlapping replacement, embedding Go `strings.Replace(s, old, new, 1)`:
the first occurrence of `pat` (scanning left to right) is replaced by `rep`;
an empty `pat` matches at the start of the string. -/
def goReplaceOnceList : List Char → List Char → List Char → List Char
  | [], pat, rep => if pat = [] then rep else []
  | c :: rest, pat, rep =>
    if pat = [] then rep ++ c :: rest
    else if pat.isPrefixOf (c :: rest) then rep ++ List.drop (pat.length - 1) rest
    else c :: goReplaceOnceList rest pat rep

/-- Helper for `goReplaceAllList`, structurally recursive on the list: a
positive first argument skips that many characters (the tail of a match that
was already emitted as the replacement). -/
def goReplaceAllAux : Nat → List Char → List Char → List Char → List Char
  | _, [], _, _ => []
  | Nat.succ k, _ :: rest, pat, rep => goReplaceAllAux k rest pat rep
  | 0, c :: rest, pat, rep =>
    if pat ≠ [] ∧ pat.isPrefixOf (c :: rest) then
      rep ++ goReplaceAllAux (pat.length - 1) rest pat rep
    else
      c :: goReplaceAllAux 0 rest pat rep

/-- All non-overlapping replacements, embedding Go `strings.Replace(s, old, new, -1)`
for a non-empty `old` (the only way the repository calls it: `old` is `"~"` or `"\""`). -/
def goReplaceAllList (l pat rep : List Char) : List Char :=
  goReplaceAllAux 0 l pat rep

/-- `strings.Replace(s, pat, rep, 1)` on `String`. -/
def goReplaceOnce (s pat rep : String) : String :=
  ⟨goReplaceOnceList s.data pat.data rep.data⟩

/-- `strings.Replace(s, pat, rep, -1)` on `String`. -/
def goReplaceAll (s pat rep : String) : String :=
  ⟨goReplaceAllList s.data pat.data rep.data⟩

/-- Embedding of `pq.QuoteIdentifier`: truncate at the first NUL rune, double
every inner double quote, and wrap the result in double quotes. -/
def quoteIdentifier (name : String) : String :=
  let truncated : String := ⟨name.data.takeWhile (fun c => c ≠ Char.ofNat 0)⟩
  "\"" ++ goReplaceAll truncated "\"" "\"\"" ++ "\""

/-- The connection-string template built by `configure` in kube mode:
`fmt.Sprintf("postgresql://%s:%s@localhost:<local_port>/system?sslmode=disable", username, password)`. -/
def cockroachDns (username password : String) : String :=
  "postgresql://" ++ username ++ ":" ++ password ++
    "@localhost:<local_port>/system?sslmode=disable"

/-- Every CRUD handler resolves its endpoint with
`strings.Replace(cockroachClient.dns, "<local_port>", local_port, 1)`. -/
def connString (dns localPort : String) : String :=
  goReplaceOnce dns "<local_port>" localPort

/-- The close-state of a Go channel, as used for the `stopCh` the CRUD
handlers create with `make(chan struct{}, 1)` (only closing is ever done to
it, so the buffered payload is irrelevant).  `close` of an already-closed
channel panics in the Go runtime. -/
structure GoChan where
  closed : Bool
deriving DecidableEq, Repr

/-- The stop channel as freshly made by each CRUD handler. -/
def mkStopCh : GoChan := ⟨false⟩

/-- Go `close(ch)`: an error value models the runtime panic. -/
def chanClose (c : GoChan) : Except String GoChan :=
  if c.closed then .error "close of closed channel" else .ok ⟨true⟩

/-- Observable effects of one provider-configure or CRUD invocation, in
program order. -/
inductive Event where
  | tunnelStart (localPort : String)
  | tunnelReady
  | connect (dns : String)
  | ping
  | pingOnNil
  | exec (stmt : String)
  | query (stmt : String)
  | setAttr (key : String)
  | closeStop
  | loadKubeConfig (path : String)
  | newClientset
deriving DecidableEq, Repr

/-- How one CRUD handler finished: a clean return, a `diag`-style error
return, or a Go runtime panic. -/
inductive OpOutcome where
  | ok
  | diagErr (msg : String)
  | panicked (msg : String)
deriving DecidableEq, Repr

/-- One run of a CRUD handler: its result and its effect trace. -/
structure OpRun where
  outcome : OpOutcome
  events : List Event
deriving DecidableEq, Repr

/-- Results of the external calls a CRUD handler makes, `none` meaning the
call returned a nil error.  `exec i` is the i-th `conn.Exec` of the handler,
`query` the combined `QueryRow(...).Scan` / `Query`, `set` the error of
`d.Set` for a given attribute key. -/
structure Oracle where
  connect : Option String
  ping : Option String
  exec : Nat → Option String
  query : Option String
  set : String → Option String

/-- The provider-level state built by `configure` (struct `cockroachClient`
with its embedded `kubeConn`); `kubePresent` stands for a non-nil
`kubeConn.kubeClient`. -/
structure CockroachClient where
  dns : String
  username : String
  password : String
  kubePresent : Bool
  nameSpace : String
  serviceName : String
  remotePort : String
deriving DecidableEq, Repr

/-- Modelled from the spec: the body of `tryPortForwardIfNeeded` is not among
the repository files available here (only its eleven call sites are).  Per the
spec, when Kubernetes configuration is absent it is a no-op returning
immediately with no listener bound, and otherwise it starts the port-forward
and waits on the readiness signal before returning, so by the time the caller
continues the readiness signal has fired. -/
def tryPortForwardIfNeeded (client : CockroachClient) (localPort : String) : List Event :=
  if client.kubePresent then [Event.tunnelStart localPort, Event.tunnelReady] else []

/-- Attributes of a `cockroach_database` resource instance as read by
`resourceDatabaseCreate` (`d.Get` of each declared attribute). -/
structure DatabaseAttrs where
  name : String
  owner : String
  encoding : String
  primaryRegion : String
  regions : List String
  localPort : String
deriving DecidableEq, Repr

/-- `resourceDatabaseCreate` from `pgx.Connect` onward: outcome together with
the trace that follows the `connect` event.  Mirrors
`internal/provider/resource_database.go` lines 119-170: every error return
happens without `close(stopCh)`; only the final success return closes it. -/
def resourceDatabaseCreateConn (a : DatabaseAttrs) (o : Oracle) : OpOutcome × List Event :=
  match o.connect with
  | some e => (.diagErr e, [])
  | none =>
    match o.ping with
    | some e => (.diagErr e, [Event.ping])
    | none =>
      let setEncoding := if a.encoding ≠ "" then "ENCODING " ++ quoteIdentifier a.encoding else ""
      let setPrimaryRegion :=
        if a.primaryRegion ≠ "" then "PRIMARY REGION " ++ quoteIdentifier a.primaryRegion else ""
      let setRegions :=
        if a.regions.length ≠ 0 then
          "REGIONS " ++ quoteIdentifier (String.join a.regions)
        else ""
      let createStmt := "CREATE DATABASE " ++ quoteIdentifier a.name ++ " " ++ setEncoding ++
        " " ++ setPrimaryRegion ++ " " ++ setRegions
      match o.exec 0 with
      | some e => (.diagErr e, [Event.ping, Event.exec createStmt])
      | none =>
        let ownerStmt := "ALTER DATABASE " ++ quoteIdentifier a.name ++ " OWNER TO " ++
          quoteIdentifier a.owner
        match o.exec 1 with
        | some e => (.diagErr e, [Event.ping, Event.exec createStmt, Event.exec ownerStmt])
        | none =>
          let q := "SELECT id FROM crdb_internal.databases WHERE name = $1"
          match o.query with
          | some e =>
            (.diagErr e, [Event.ping, Event.exec createStmt, Event.exec ownerStmt, Event.query q])
          | none =>
            -- d.SetId and the five d.Set calls have their return values ignored
            (.ok, [Event.ping, Event.exec createStmt, Event.exec ownerStmt, Event.query q,
              Event.setAttr "name", Event.setAttr "owner", Event.setAttr "encoding",
              Event.setAttr "primary_region", Event.setAttr "regions", Event.closeStop])

/-- Embedding of `resourceDatabaseCreate` (resource_database.go lines 80-171):
reads the attributes, resolves the endpoint, checks the name, computes the
optional clauses, runs `tryPortForwardIfNeeded`, then connects. -/
def resourceDatabaseCreate (client : CockroachClient) (a : DatabaseAttrs) (o : Oracle) : OpRun :=
  let dns := connString client.dns a.localPort
  if a.name = "" then ⟨.diagErr "database name can't be an empty string", []⟩
  else
    let (out, tail) := resourceDatabaseCreateConn a o
    ⟨out, tryPortForwardIfNeeded client a.localPort ++ Event.connect dns :: tail⟩

/-- Attributes of a `cockroach_user` resource instance as read by
`resourceUserCreate`. -/
structure UserAttrs where
  username : String
  password : String
  roles : String
  isAdmin : Bool
  localPort : String
deriving DecidableEq, Repr

/-- `resourceUserCreate` from `pgx.Connect` onward (unnamed/part_001 lines
99-145).  The CREATE USER statement quotes only the username; the password
and the roles string are concatenated verbatim. -/
def resourceUserCreateConn (u : UserAttrs) (o : Oracle) : OpOutcome × List Event :=
  match o.connect with
  | some e => (.diagErr e, [])
  | none =>
    match o.ping with
    | some e => (.diagErr e, [Event.ping])
    | none =>
      let createStmt := "CREATE USER " ++ quoteIdentifier u.username ++ " WITH PASSWORD '" ++
        u.password ++ "' " ++ u.roles
      match o.exec 0 with
      | some e => (.diagErr e, [Event.ping, Event.exec createStmt])
      | none =>
        if u.isAdmin then
          let grantStmt := "GRANT admin TO " ++ quoteIdentifier u.username ++ " WITH ADMIN OPTION"
          match o.exec 1 with
          | some e => (.diagErr e, [Event.ping, Event.exec createStmt, Event.exec grantStmt])
          | none =>
            (.ok, [Event.ping, Event.exec createStmt, Event.exec grantStmt,
              Event.setAttr "name", Event.setAttr "password", Event.setAttr "roles",
              Event.setAttr "is_admin", Event.closeStop])
        else
          (.ok, [Event.ping, Event.exec createStmt,
            Event.setAttr "name", Event.setAttr "password", Event.setAttr "roles",
            Event.setAttr "is_admin", Event.closeStop])

/-- Embedding of `resourceUserCreate` (unnamed/part_001 lines 69-145): the
empty-string checks on local_port, username and password come before the
port-forward and the connection. -/
def resourceUserCreate (client : CockroachClient) (u : UserAttrs) (o : Oracle) : OpRun :=
  let dns := connString client.dns u.localPort
  if u.localPort = "" then ⟨.diagErr "local_port can't be an empty string", []⟩
  else if u.username = "" then ⟨.diagErr "username can't be an empty string", []⟩
  else if u.password = "" then ⟨.diagErr "password can't be an empty string", []⟩
  else
    let (out, tail) := resourceUserCreateConn u o
    ⟨out, tryPortForwardIfNeeded client u.localPort ++ Event.connect dns :: tail⟩

/-- State and plan of a `cockroach_user` update as seen by
`resourceUserUpdate`: `id` is `d.Id()`, the old/new pairs are what
`d.GetChange` returns for each attribute, and `d.HasChange` holds exactly
when old and new differ. -/
structure UserUpdateAttrs where
  id : String
  oldPassword : String
  newPassword : String
  oldAdmin : Bool
  newAdmin : Bool
  oldRoles : String
  newRoles : String
  localPort : String
deriving DecidableEq, Repr

/-- The body of the `HasChange` branch of `resourceUserUpdate`
(unnamed/part_001 lines 255-313), after the ping; the returned trace excludes
the ping event. -/
def resourceUserUpdateChanged (u : UserUpdateAttrs) (o : Oracle) : OpOutcome × List Event :=
  if u.newPassword = "" then (.diagErr "User password cannot be empty", [])
  else
    let alterStmt := "ALTER USER " ++ quoteIdentifier u.id ++ " WITH PASSWORD '" ++
      u.newPassword ++ "' " ++ u.newRoles
    match o.exec 0 with
    | some e => (.diagErr e, [Event.exec alterStmt])
    | none =>
      if u.oldAdmin && !u.newAdmin then
        let revokeStmt := "REVOKE admin from " ++ quoteIdentifier u.id
        match o.exec 1 with
        | some e => (.diagErr e, [Event.exec alterStmt, Event.exec revokeStmt])
        | none =>
          (.ok, [Event.exec alterStmt, Event.exec revokeStmt,
            Event.setAttr "is_admin", Event.setAttr "roles", Event.setAttr "password"])
      else if !u.oldAdmin && u.newAdmin then
        let grantStmt := "GRANT admin to " ++ quoteIdentifier u.id ++ " WITH ADMIN OPTION"
        match o.exec 2 with
        | some e => (.diagErr e, [Event.exec alterStmt, Event.exec grantStmt])
        | none =>
          (.ok, [Event.exec alterStmt, Event.exec grantStmt,
            Event.setAttr "is_admin", Event.setAttr "roles", Event.setAttr "password"])
      else
        (.ok, [Event.exec alterStmt,
          Event.setAttr "is_admin", Event.setAttr "roles", Event.setAttr "password"])

/-- `resourceUserUpdate` from `pgx.Connect` onward: on a clean finish of the
changed branch (or when nothing changed) the stop channel is closed; every
error return leaves it open. -/
def resourceUserUpdateConn (u : UserUpdateAttrs) (o : Oracle) : OpOutcome × List Event :=
  match o.connect with
  | some e => (.diagErr e, [])
  | none =>
    match o.ping with
    | some e => (.diagErr e, [Event.ping])
    | none =>
      if u.oldAdmin != u.newAdmin || u.oldRoles != u.newRoles ||
          u.oldPassword != u.newPassword then
        match resourceUserUpdateChanged u o with
        | (.ok, evs) => (.ok, Event.ping :: evs ++ [Event.closeStop])
        | (out, evs) => (out, Event.ping :: evs)
      else
        (.ok, [Event.ping, Event.closeStop])

/-- Embedding of `resourceUserUpdate` (unnamed/part_001 lines 226-318). -/
def resourceUserUpdate (client : CockroachClient) (u : UserUpdateAttrs) (o : Oracle) : OpRun :=
  let dns := connString client.dns u.localPort
  if u.localPort = "" then ⟨.diagErr "local_port can't be an empty string", []⟩
  else
    let (out, tail) := resourceUserUpdateConn u o
    ⟨out, tryPortForwardIfNeeded client u.localPort ++ Event.connect dns :: tail⟩

/-- `dataSourceDatabaseRead` from `pgx.Connect` onward (unnamed/part_000
lines 57-85).  The error returned by `pgx.Connect` is never inspected: the
code proceeds to call `conn.Ping` on the nil connection, a nil-pointer
dereference. -/
def dataSourceDatabaseReadConn (_name : String) (o : Oracle) : OpOutcome × List Event :=
  match o.connect with
  | some _ =>
    (.panicked "invalid memory address or nil pointer dereference", [Event.pingOnNil])
  | none =>
    match o.ping with
    | some e => (.diagErr e, [Event.ping])
    | none =>
      let q := "SELECT id, owner FROM crdb_internal.databases WHERE name = $1"
      match o.query with
      | some e => (.diagErr e, [Event.ping, Event.query q])
      | none =>
        match o.set "name" with
        | some e => (.diagErr e, [Event.ping, Event.query q, Event.setAttr "name"])
        | none =>
          match o.set "owner" with
          | some e =>
            (.diagErr e, [Event.ping, Event.query q, Event.setAttr "name",
              Event.setAttr "owner"])
          | none =>
            (.ok, [Event.ping, Event.query q, Event.setAttr "name", Event.setAttr "owner",
              Event.closeStop])

/-- Embedding of `dataSourceDatabaseRead` (unnamed/part_000 lines 43-85). -/
def dataSourceDatabaseRead (client : CockroachClient) (name localPort : String)
    (o : Oracle) : OpRun :=
  let dns := connString client.dns localPort
  let (out, tail) := dataSourceDatabaseReadConn name o
  ⟨out, tryPortForwardIfNeeded client localPort ++ Event.connect dns :: tail⟩

/-- The `kube_config` block of the provider configuration, with the SDK
defaults already applied to unset optional attributes (`kube_config_path`
defaults to `~/.kube/config`, `remote_port` to `26257`). -/
structure KubeBlock where
  kubeConfigPath : String
  nameSpace : String
  serviceName : String
  remotePort : String
deriving DecidableEq, Repr

/-- The provider-level attribute values `configure` reads. -/
structure ProviderConfig where
  dnsAttr : String
  username : String
  password : String
  kubeConfig : Option KubeBlock
deriving Repr

/-- The process environment and Kubernetes-side collaborators `configure`
touches: the HOME variable, whether `clientcmd.BuildConfigFromFlags`
succeeds for a given resolved path, and whether `kubernetes.NewForConfig`
succeeds. -/
structure Env where
  home : String
  kubeBuildOk : String → Bool
  newClientsetOk : Bool

/-- How `configure` fails: a diagnostic return, or a Go runtime panic. -/
inductive ConfigFailure where
  | diag (msg : String)
  | panicFail (msg : String)
deriving DecidableEq, Repr

/-- One run of `configure`: the produced client or the failure, plus the
effect trace. -/
structure ConfigureRun where
  result : Except ConfigFailure CockroachClient
  events : List Event

/-- Whether a `configure` run produced a client. -/
def ConfigureRun.succeeded (r : ConfigureRun) : Bool :=
  match r.result with
  | .ok _ => true
  | .error _ => false

/-- Embedding of `homeDir` (provider source): the HOME environment variable,
or an error when it is empty/unset. -/
def homeDir (env : Env) : Except String String :=
  if env.home ≠ "" then .ok env.home else .error "unable to get HOME directory"

/-- The `~`-expansion step of `configure`: when the configured path contains
`~`, every occurrence is replaced by the home directory
(`strings.Replace(path, "~", homeDir, -1)`); determining the home directory
can fail. -/
def resolveKubePath (env : Env) (path : String) : Except String String :=
  if '~' ∈ path.data then
    (homeDir env).map (fun h => goReplaceAll path "~" h)
  else
    .ok path

/-- The attribute keys declared in `providerSchema()`. -/
def providerSchemaKeys : List String := ["dns", "username", "password", "kube_config"]

/-- Model of `(*schema.ResourceData).Get` on the provider schema for
string-typed attributes: the attribute value for a declared key, `none` for
an undeclared key (the SDK returns nil there, and a `.(string)` type
assertion on nil panics). -/
def resourceDataGetString (cfg : ProviderConfig) (key : String) : Option String :=
  if key = "dns" then some cfg.dnsAttr
  else if key = "username" then some cfg.username
  else if key = "password" then some cfg.password
  else none

/-- The kube branch of `configure` once the path is resolved: build the
rest config, build the clientset, then validate namespace and service name
(in that order), and finally assemble the client with the templated dns. -/
def configureKube (env : Env) (cfg : ProviderConfig) (k : KubeBlock)
    (path : String) : ConfigureRun :=
  if env.kubeBuildOk path then
    if env.newClientsetOk then
      if k.nameSpace ≠ "" then
        if k.serviceName ≠ "" then
          let dns := cockroachDns cfg.username cfg.password
          let client : CockroachClient :=
            { dns := dns, username := cfg.username, password := cfg.password,
              kubePresent := true, nameSpace := k.nameSpace,
              serviceName := k.serviceName, remotePort := k.remotePort }
          if dns = "" then
            ⟨.error (.diag "argument 'argDns' is required"),
              [Event.loadKubeConfig path, Event.newClientset]⟩
          else
            ⟨.ok client, [Event.loadKubeConfig path, Event.newClientset]⟩
        else
          ⟨.error (.diag "Cockroachdb service name is not specified"),
            [Event.loadKubeConfig path, Event.newClientset]⟩
      else
        ⟨.error (.diag "Cockroachdb namespace is not specified"),
          [Event.loadKubeConfig path, Event.newClientset]⟩
    else
      ⟨.error (.diag "NewForConfig failed"),
        [Event.loadKubeConfig path, Event.newClientset]⟩
  else
    ⟨.error (.diag "BuildConfigFromFlags failed"), [Event.loadKubeConfig path]⟩

/-- Embedding of `configure` (the provider source): username and password
checks, then either the kube branch, or the direct-DNS branch.  The
direct-DNS branch looks the dns value up under the literal key `"argDns"`
(the name of the Go constant, not its value `"dns"`), which is not a
declared attribute: `d.Get` yields nil and the `.(string)` assertion
panics, so the supplied dns value is never consulted. -/
def configure (env : Env) (cfg : ProviderConfig) : ConfigureRun :=
  if cfg.username = "" then
    ⟨.error (.diag "database username can't be an empty string"), []⟩
  else if cfg.password = "" then
    ⟨.error (.diag "database password can't be an empty string"), []⟩
  else
    match cfg.kubeConfig with
    | some k =>
      match resolveKubePath env k.kubeConfigPath with
      | .error e => ⟨.error (.diag e), []⟩
      | .ok path => configureKube env cfg k path
    | none =>
      match resourceDataGetString cfg "argDns" with
      | none =>
        ⟨.error (.panicFail "interface conversion: interface is nil, not string"), []⟩
      | some u =>
        let dns := if u ≠ "" then u else ""
        if dns = "" then ⟨.error (.diag "argument 'argDns' is required"), []⟩
        else
          let client : CockroachClient :=
            { dns := dns, username := cfg.username, password := cfg.password,
              kubePresent := false, nameSpace := "", serviceName := "",
              remotePort := "" }
          ⟨.ok client, []⟩

/-- The part of a Terraform attribute schema the claims speak about. -/
structure AttrSchema where
  required : Bool
  optional : Bool
  defaultVal : Option String
  description : String
deriving DecidableEq, Repr

/-- `local_port` of resource `cockroach_database` (resource_database.go
lines 70-75). -/
def databaseLocalPortSchema : AttrSchema :=
  { required := false, optional := true, defaultVal := some "26258",
    description := "Local port to be used for port-forward. (default is 26258), use different port to avoid same port opening." }

/-- `local_port` of resource `cockroach_user` (unnamed/part_001 lines
60-64): declared Required with no Default, while its own description says
the default is 26257. -/
def userLocalPortSchema : AttrSchema :=
  { required := true, optional := false, defaultVal := none,
    description := "Local port to be used for port-forward. (default is 26257), use different port to avoid same port opening." }

/-- `local_port` of the `cockroach_database` data source (unnamed/part_000
lines 33-38). -/
def dataSourceLocalPortSchema : AttrSchema :=
  { required := false, optional := true, defaultVal := some "26259",
    description := "Local port to be used for port-forward. (default is 26259), use different port to avoid same port opening." }

/-- `local_port` of resource `cockroach_database_backup`
(resource_database_backup.go lines 76-81). -/
def backupLocalPortSchema : AttrSchema :=
  { required := false, optional := true, defaultVal := some "26260",
    description := "Local port to be used for port-forward. (default is 26258), use different port to avoid same port opening." }

/-- `kube_config_path` of the provider `kube_config` block. -/
def kubeConfigPathSchema : AttrSchema :=
  { required := false, optional := true, defaultVal := some "~/.kube/config",
    description := "Full path to a Kubernetes config" }

/-- `remote_port` of the provider `kube_config` block. -/
def remotePortSchema : AttrSchema :=
  { required := false, optional := true, defaultVal := some "26257",
    description := "Remote service port to forward" }

/-- `namespace` of the provider `kube_config` block: schema-optional, but
`configure` rejects an empty value when the block is present. -/
def namespaceSchema : AttrSchema :=
  { required := false, optional := true, defaultVal := none,
    description := "Kubernetes namespace where HC Vault is run" }

/-- `service_name` of the provider `kube_config` block: schema-optional, but
`configure` rejects an empty value when the block is present. -/
def serviceNameSchema : AttrSchema :=
  { required := false, optional := true, defaultVal := none,
    description := "Kubernetes service name of Vault" }

/-- Is this event the readiness signal firing? -/
def isReadyEv : Event → Bool
  | .tunnelReady => true
  | _ => false

/-- Is this event a database connection attempt? -/
def isConnectEv : Event → Bool
  | .connect _ => true
  | _ => false

/-- Index of the first event satisfying `p`. -/
def firstIdx (p : Event → Bool) : List Event → Option Nat
  | [] => none
  | e :: es => if p e then some 0 else (firstIdx p es).map (· + 1)

/-- In this trace, the readiness signal fires strictly before the first
connection attempt (vacuously true when no connection is attempted). -/
def readyBeforeConnect (es : List Event) : Prop :=
  ∀ j, firstIdx isConnectEv es = some j →
    ∃ i, firstIdx isReadyEv es = some i ∧ i < j

theorem readyBeforeConnect_nil : readyBeforeConnect [] := by
  intro j h
  simp [firstIdx] at h

theorem readyBeforeConnect_shape (lp d : String) (tail : List Event) :
    readyBeforeConnect
      (Event.tunnelStart lp :: Event.tunnelReady :: Event.connect d :: tail) := by
  intro j h
  refine ⟨1, ?_, ?_⟩
  · simp [firstIdx, isReadyEv]
  · simp [firstIdx, isConnectEv, isReadyEv] at h
    omega

/-- C4: in every modelled CRUD operation run against a client with Kubernetes
configuration present, the tunnel readiness signal fires strictly before the
`pgx.Connect` attempt (each handler calls `tryPortForwardIfNeeded`, which per
the spec waits on the readiness signal, before connecting). -/
theorem c4_ready_before_connect (client : CockroachClient) (o : Oracle)
    (hk : client.kubePresent = true) :
    (∀ a, readyBeforeConnect (resourceDatabaseCreate client a o).events) ∧
    (∀ u, readyBeforeConnect (resourceUserCreate client u o).events) ∧
    (∀ u, readyBeforeConnect (resourceUserUpdate client u o).events) ∧
    (∀ name lp, readyBeforeConnect (dataSourceDatabaseRead client name lp o).events) := by
  refine ⟨fun a => ?_, fun u => ?_, fun u => ?_, fun name lp => ?_⟩
  · by_cases hn : a.name = ""
    · simp [resourceDatabaseCreate, hn]
      exact readyBeforeConnect_nil
    · rcases hco : resourceDatabaseCreateConn a o with ⟨out, tail⟩
      simp [resourceDatabaseCreate, hn, hco, tryPortForwardIfNeeded, hk]
      exact readyBeforeConnect_shape _ _ _
  · by_cases hl : u.localPort = ""
    · simp [resourceUserCreate, hl]
      exact readyBeforeConnect_nil
    · by_cases hu : u.username = ""
      · simp [resourceUserCreate, hl, hu]
        exact readyBeforeConnect_nil
      · by_cases hp : u.password = ""
        · simp [resourceUserCreate, hl, hu, hp]
          exact readyBeforeConnect_nil
        · rcases hco : resourceUserCreateConn u o with ⟨out, tail⟩
          simp [resourceUserCreate, hl, hu, hp, hco, tryPortForwardIfNeeded, hk]
          exact readyBeforeConnect_shape _ _ _
  · by_cases hl : u.localPort = ""
    · simp [resourceUserUpdate, hl]
      exact readyBeforeConnect_nil
    · rcases hco : resourceUserUpdateConn u o with ⟨out, tail⟩
      simp [resourceUserUpdate, hl, hco, tryPortForwardIfNeeded, hk]
      exact readyBeforeConnect_shape _ _ _
  · rcases hco : dataSourceDatabaseReadConn name o with ⟨out, tail⟩
    simp [dataSourceDatabaseRead, hco, tryPortForwardIfNeeded, hk]
    exact readyBeforeConnect_shape _ _ _

/-- Witness for C4 at a concrete client, oracle and attribute set. -/
theorem c4_ready_before_connect_witness :
    readyBeforeConnect
      (resourceDatabaseCreate
        { dns := cockroachDns "master" "pw", username := "master", password := "pw",
          kubePresent := true, nameSpace := "crdb", serviceName := "cockroachdb",
          remotePort := "26257" }
        { name := "mydb", owner := "root", encoding := "", primaryRegion := "",
          regions := [], localPort := "26258" }
        { connect := none, ping := none, exec := fun _ => none, query := none,
          set := fun _ => none }).events :=
  (c4_ready_before_connect _ _ rfl).1 _

/-- The concrete inputs refuting C1: `resourceDatabaseCreate` run against a
kube-mode client with `pgx.Connect` failing. -/
def c1Client : CockroachClient :=
  { dns := cockroachDns "master" "pw", username := "master", password := "pw",
    kubePresent := true, nameSpace := "crdb", serviceName := "cockroachdb",
    remotePort := "26257" }

/-- The attributes of the database being created in the C1 run. -/
def c1Attrs : DatabaseAttrs :=
  { name := "mydb", owner := "root", encoding := "", primaryRegion := "",
    regions := [], localPort := "26258" }

/-- External-call results for the failing C1 run: the connection attempt
fails, as it does whenever the forward or the endpoint is unhealthy. -/
def c1Oracle : Oracle :=
  { connect := some "dial tcp 127.0.0.1:26258: connect: connection refused",
    ping := none, exec := fun _ => none, query := none, set := fun _ => none }

/-- External-call results for the all-successful contrast run of C1. -/
def c1OkOracle : Oracle :=
  { connect := none, ping := none, exec := fun _ => none, query := none,
    set := fun _ => none }

/-- C1 (code bug): the claim says the stop channel is closed on every exit
path, but `resourceDatabaseCreate` closes it only on the success path: when
`pgx.Connect` fails after the port-forward was started, the handler returns
the error diagnostic with no `close(stopCh)` in its trace, leaking the
forward and its bound local port; the all-success run does close it. -/
theorem c1_stop_channel_leaked_on_error_path :
    (resourceDatabaseCreate c1Client c1Attrs c1Oracle).outcome
      = .diagErr "dial tcp 127.0.0.1:26258: connect: connection refused" ∧
    Event.tunnelStart "26258" ∈ (resourceDatabaseCreate c1Client c1Attrs c1Oracle).events ∧
    Event.closeStop ∉ (resourceDatabaseCreate c1Client c1Attrs c1Oracle).events ∧
    Event.closeStop ∈ (resourceDatabaseCreate c1Client c1Attrs c1OkOracle).events := by
  decide

/-- C5 counterexample: the claim says closing the stop signal twice in
succession never panics, but the stop channel is a bare Go channel
(`make(chan struct{}, 1)`), and the Go runtime panics on `close` of an
already-closed channel: the second close of the freshly made stop channel
panics. -/
theorem c5_double_close_panics :
    (chanClose mkStopCh).bind chanClose = .error "close of closed channel" := by
  rfl

/-- C5 (amended): closing the stop channel once never panics — including
before readiness was ever reached, since closing it is independent of the
separate readiness channel — but a second close of the already-closed
channel panics in the Go runtime. -/
theorem c5_single_close_safe :
    chanClose mkStopCh = .ok ⟨true⟩ ∧
    (chanClose mkStopCh).bind chanClose = .error "close of closed channel" := by
  exact ⟨rfl, rfl⟩

/-- Provider attribute values for the C2 run: no `kube_config` block and a
directly supplied dns value. -/
def c2Cfg : ProviderConfig :=
  { dnsAttr := "postgresql://master:pw@db.example.com:26257/system?sslmode=disable",
    username := "master", password := "pw", kubeConfig := none }

/-- Environment for the C2 run (irrelevant to the direct-DNS branch). -/
def c2Env : Env :=
  { home := "/home/me", kubeBuildOk := fun _ => true, newClientsetOk := true }

/-- C2 (code bug): the claim says that without a kube_config block
configuration succeeds using the supplied dns value, but `configure` reads
the value under the literal key `"argDns"` — the name of the Go constant
whose value is `"dns"` — which is not a declared provider attribute, so the
supplied dns value is never consulted and direct-DNS configuration never
produces a client. -/
theorem c2_direct_dns_mode_never_succeeds :
    "argDns" ∉ providerSchemaKeys ∧
    "dns" ∈ providerSchemaKeys ∧
    resourceDataGetString c2Cfg "argDns" = none ∧
    resourceDataGetString c2Cfg "dns" = some c2Cfg.dnsAttr ∧
    (configure c2Env c2Cfg).result
      = .error (.panicFail "interface conversion: interface is nil, not string") ∧
    (configure c2Env c2Cfg).succeeded = false := by
  refine ⟨by decide, by decide, rfl, rfl, rfl, rfl⟩

/-- C7 (code bug): the defaults of the configuration surface.  The provider
block and three of the four per-resource `local_port` attributes carry the
claimed defaults, but `local_port` of `cockroach_user` is declared Required
with no default at all — contradicting both the claim and the attribute's
own description, which states the default is 26257. -/
theorem c7_user_local_port_has_no_default :
    kubeConfigPathSchema.defaultVal = some "~/.kube/config" ∧
    remotePortSchema.defaultVal = some "26257" ∧
    databaseLocalPortSchema.defaultVal = some "26258" ∧
    dataSourceLocalPortSchema.defaultVal = some "26259" ∧
    backupLocalPortSchema.defaultVal = some "26260" ∧
    userLocalPortSchema.defaultVal = none ∧
    userLocalPortSchema.required = true ∧
    userLocalPortSchema.description
      = "Local port to be used for port-forward. (default is 26257), use different port to avoid same port opening." := by
  exact ⟨rfl, rfl, rfl, rfl, rfl, rfl, rfl, rfl⟩

/-- Client and oracle for the C10 run: the data-source read with a failing
`pgx.Connect`. -/
def c10Client : CockroachClient :=
  { dns := cockroachDns "master" "pw", username := "master", password := "pw",
    kubePresent := true, nameSpace := "crdb", serviceName := "cockroachdb",
    remotePort := "26257" }

/-- External-call results for the C10 run: the connection attempt fails. -/
def c10Oracle : Oracle :=
  { connect := some "dial tcp 127.0.0.1:26259: connect: connection refused",
    ping := none, exec := fun _ => none, query := none, set := fun _ => none }

/-- C10 (code bug): the claim says a failed connection is returned as a
diagnostic without touching the connection value, but `dataSourceDatabaseRead`
never inspects the error returned by `pgx.Connect`: it proceeds to invoke
`Ping` on the nil connection, a nil-pointer dereference, and the connect
error is never surfaced. -/
theorem c10_connect_error_ignored :
    (dataSourceDatabaseRead c10Client "mydb" "26259" c10Oracle).outcome
      = .panicked "invalid memory address or nil pointer dereference" ∧
    Event.pingOnNil ∈ (dataSourceDatabaseRead c10Client "mydb" "26259" c10Oracle).events ∧
    (dataSourceDatabaseRead c10Client "mydb" "26259" c10Oracle).outcome
      ≠ .diagErr "dial tcp 127.0.0.1:26259: connect: connection refused" := by
  decide

theorem cockroachDns_ne_empty (u p : String) : cockroachDns u p ≠ "" := by
  intro h
  have hl : (cockroachDns u p).length = 0 := by rw [h]; rfl
  rw [cockroachDns] at hl
  simp [String.length_append] at hl
  have := hl.1.1.1.1
  simp [String.length] at this

theorem configureKube_load_mem (env : Env) (cfg : ProviderConfig) (k : KubeBlock)
    (path : String) :
    Event.loadKubeConfig path ∈ (configureKube env cfg k path).events := by
  unfold configureKube
  split_ifs <;> simp [cockroachDns_ne_empty]

theorem configureKube_load_unique (env : Env) (cfg : ProviderConfig) (k : KubeBlock)
    (path p : String) :
    Event.loadKubeConfig p ∈ (configureKube env cfg k path).events → p = path := by
  unfold configureKube
  split_ifs <;> simp [cockroachDns_ne_empty]

theorem configureKube_no_tunnel (env : Env) (cfg : ProviderConfig) (k : KubeBlock)
    (path lp : String) :
    Event.tunnelStart lp ∉ (configureKube env cfg k path).events := by
  unfold configureKube
  split_ifs <;> simp [cockroachDns_ne_empty]

theorem configureKube_empty_field (env : Env) (cfg : ProviderConfig) (k : KubeBlock)
    (path : String) (h : k.nameSpace = "" ∨ k.serviceName = "") :
    (configureKube env cfg k path).succeeded = false := by
  unfold configureKube
  split_ifs <;> first
    | rfl
    | (rcases h with h | h <;> simp_all [ConfigureRun.succeeded, cockroachDns_ne_empty])

/-- C3: for every provider configuration with a kube_config block whose
namespace or service_name is empty, `configure` produces no client and
binds no listener, and — whenever the earlier steps (credential checks,
path resolution, kube config load, clientset construction) succeed — fails
with exactly the configuration diagnostic rejecting the empty field (the
namespace check runs first, matching the source order). -/
theorem c3_empty_namespace_or_service_rejected (env : Env) (cfg : ProviderConfig)
    (k : KubeBlock) (hk : cfg.kubeConfig = some k)
    (hns : k.nameSpace = "" ∨ k.serviceName = "") :
    (configure env cfg).succeeded = false ∧
    (∀ lp, Event.tunnelStart lp ∉ (configure env cfg).events) ∧
    (∀ path, resolveKubePath env k.kubeConfigPath = .ok path →
      env.kubeBuildOk path = true → env.newClientsetOk = true →
      cfg.username ≠ "" → cfg.password ≠ "" →
      (configure env cfg).result =
        (if k.nameSpace = "" then .error (.diag "Cockroachdb namespace is not specified")
         else .error (.diag "Cockroachdb service name is not specified"))) := by
  refine ⟨?_, ?_, ?_⟩
  · by_cases hu : cfg.username = ""
    · simp [configure, hu, ConfigureRun.succeeded]
    · by_cases hp : cfg.password = ""
      · simp [configure, hu, hp, ConfigureRun.succeeded]
      · rcases hrp : resolveKubePath env k.kubeConfigPath with e | path
        · simp [configure, hu, hp, hk, hrp, ConfigureRun.succeeded]
        · simpa [configure, hu, hp, hk, hrp] using
            configureKube_empty_field env cfg k path hns
  · intro lp
    by_cases hu : cfg.username = ""
    · simp [configure, hu]
    · by_cases hp : cfg.password = ""
      · simp [configure, hu, hp]
      · rcases hrp : resolveKubePath env k.kubeConfigPath with e | path
        · simp [configure, hu, hp, hk, hrp]
        · simpa [configure, hu, hp, hk, hrp] using
            configureKube_no_tunnel env cfg k path lp
  · intro path hrp hb hc hu hp
    by_cases h2 : k.nameSpace = ""
    · simp [configure, hu, hp, hk, hrp, configureKube, hb, hc, h2]
    · have hsv : k.serviceName = "" := hns.resolve_left h2
      simp [configure, hu, hp, hk, hrp, configureKube, hb, hc, h2, hsv]

/-- Witness for C3 at concrete environments and configurations: one with an
empty namespace, one with a nonempty namespace but empty service name. -/
theorem c3_empty_namespace_or_service_rejected_witness :
    (configure
      { home := "/home/me", kubeBuildOk := fun _ => true, newClientsetOk := true }
      { dnsAttr := "", username := "master", password := "pw",
        kubeConfig := some { kubeConfigPath := "~/.kube/config", nameSpace := "",
                             serviceName := "cockroachdb", remotePort := "26257" } }).succeeded = false ∧
    (configure
      { home := "/home/me", kubeBuildOk := fun _ => true, newClientsetOk := true }
      { dnsAttr := "", username := "master", password := "pw",
        kubeConfig := some { kubeConfigPath := "~/.kube/config", nameSpace := "",
                             serviceName := "cockroachdb", remotePort := "26257" } }).result
      = .error (.diag "Cockroachdb namespace is not specified") ∧
    (configure
      { home := "/home/me", kubeBuildOk := fun _ => true, newClientsetOk := true }
      { dnsAttr := "", username := "master", password := "pw",
        kubeConfig := some { kubeConfigPath := "~/.kube/config", nameSpace := "crdb",
                             serviceName := "", remotePort := "26257" } }).succeeded = false ∧
    (configure
      { home := "/home/me", kubeBuildOk := fun _ => true, newClientsetOk := true }
      { dnsAttr := "", username := "master", password := "pw",
        kubeConfig := some { kubeConfigPath := "~/.kube/config", nameSpace := "crdb",
                             serviceName := "", remotePort := "26257" } }).result
      = .error (.diag "Cockroachdb service name is not specified") := by
  have h1 := c3_empty_namespace_or_service_rejected
    { home := "/home/me", kubeBuildOk := fun _ => true, newClientsetOk := true }
    { dnsAttr := "", username := "master", password := "pw",
      kubeConfig := some { kubeConfigPath := "~/.kube/config", nameSpace := "",
                           serviceName := "cockroachdb", remotePort := "26257" } }
    { kubeConfigPath := "~/.kube/config", nameSpace := "",
      serviceName := "cockroachdb", remotePort := "26257" }
    rfl (Or.inl rfl)
  have h2 := c3_empty_namespace_or_service_rejected
    { home := "/home/me", kubeBuildOk := fun _ => true, newClientsetOk := true }
    { dnsAttr := "", username := "master", password := "pw",
      kubeConfig := some { kubeConfigPath := "~/.kube/config", nameSpace := "crdb",
                           serviceName := "", remotePort := "26257" } }
    { kubeConfigPath := "~/.kube/config", nameSpace := "crdb",
      serviceName := "", remotePort := "26257" }
    rfl (Or.inr rfl)
  refine ⟨h1.1, ?_, h2.1, ?_⟩
  · have := h1.2.2 "/home/me/.kube/config" rfl rfl rfl (by decide) (by decide)
    simpa using this
  · have := h2.2.2 "/home/me/.kube/config" rfl rfl rfl (by decide) (by decide)
    simpa using this

/-- C8: when the configured kube_config_path contains `~`, `configure`
expands every `~` to the invoking user's home directory before the
Kubernetes config is loaded — the load is invoked on exactly the expanded
path — and when the home directory cannot be determined (empty HOME),
configuration fails with that error and no load is attempted. -/
theorem c8_tilde_expansion (env : Env) (cfg : ProviderConfig) (k : KubeBlock)
    (hk : cfg.kubeConfig = some k) (hu : cfg.username ≠ "") (hp : cfg.password ≠ "")
    (ht : '~' ∈ k.kubeConfigPath.data) :
    (env.home = "" →
      (configure env cfg).result = .error (.diag "unable to get HOME directory") ∧
      ∀ p, Event.loadKubeConfig p ∉ (configure env cfg).events) ∧
    (env.home ≠ "" →
      Event.loadKubeConfig (goReplaceAll k.kubeConfigPath "~" env.home)
        ∈ (configure env cfg).events ∧
      ∀ p, Event.loadKubeConfig p ∈ (configure env cfg).events →
        p = goReplaceAll k.kubeConfigPath "~" env.home) := by
  constructor
  · intro hh
    have hrp : resolveKubePath env k.kubeConfigPath = .error "unable to get HOME directory" := by
      simp [resolveKubePath, ht, homeDir, hh, Except.map]
    constructor
    · simp [configure, hu, hp, hk, hrp]
    · intro p
      simp [configure, hu, hp, hk, hrp]
  · intro hh
    have hrp : resolveKubePath env k.kubeConfigPath
        = .ok (goReplaceAll k.kubeConfigPath "~" env.home) := by
      simp [resolveKubePath, ht, homeDir, hh, Except.map]
    constructor
    · simpa [configure, hu, hp, hk, hrp] using
        configureKube_load_mem env cfg k (goReplaceAll k.kubeConfigPath "~" env.home)
    · intro p
      simpa [configure, hu, hp, hk, hrp] using
        configureKube_load_unique env cfg k (goReplaceAll k.kubeConfigPath "~" env.home) p

/-- Witness for C8: with HOME=/home/me the load receives the expanded path. -/
theorem c8_tilde_expansion_witness :
    Event.loadKubeConfig "/home/me/.kube/config"
      ∈ (configure
        { home := "/home/me", kubeBuildOk := fun _ => true, newClientsetOk := true }
        { dnsAttr := "", username := "master", password := "pw",
          kubeConfig := some { kubeConfigPath := "~/.kube/config", nameSpace := "crdb",
                               serviceName := "cockroachdb", remotePort := "26257" } }).events := by
  have h := (c8_tilde_expansion
    { home := "/home/me", kubeBuildOk := fun _ => true, newClientsetOk := true }
    { dnsAttr := "", username := "master", password := "pw",
      kubeConfig := some { kubeConfigPath := "~/.kube/config", nameSpace := "crdb",
                           serviceName := "cockroachdb", remotePort := "26257" } }
    { kubeConfigPath := "~/.kube/config", nameSpace := "crdb",
      serviceName := "cockroachdb", remotePort := "26257" }
    rfl (by decide) (by decide) (by decide)).2 (by decide)
  have he : goReplaceAll "~/.kube/config" "~" "/home/me" = "/home/me/.kube/config" := by decide
  simpa [he] using h.1

theorem goReplaceOnceList_seek (p : Char) (pt rep ys : List Char) :
    ∀ xs : List Char, (∀ c ∈ xs, c ≠ p) →
      goReplaceOnceList (xs ++ (p :: pt) ++ ys) (p :: pt) rep = xs ++ rep ++ ys := by
  intro xs
  induction xs with
  | nil =>
    intro _
    simp only [List.nil_append]
    show goReplaceOnceList ((p :: pt) ++ ys) (p :: pt) rep = rep ++ ys
    rw [List.cons_append]
    unfold goReplaceOnceList
    have hpre : (p :: pt).isPrefixOf (p :: (pt ++ ys)) = true := by
      rw [List.isPrefixOf_iff_prefix]
      rw [← List.cons_append]
      exact List.prefix_append _ _
    rw [if_neg (by simp), if_pos hpre]
    simp [List.drop_left]
  | cons c xs ih =>
    intro h
    have hc : c ≠ p := h c (by simp)
    have hrest : ∀ x ∈ xs, x ≠ p := fun x hx => h x (by simp [hx])
    show goReplaceOnceList (c :: (xs ++ (p :: pt) ++ ys)) (p :: pt) rep
        = (c :: xs) ++ rep ++ ys
    unfold goReplaceOnceList
    have hpre : (p :: pt).isPrefixOf (c :: (xs ++ (p :: pt) ++ ys)) = false := by
      simp [List.isPrefixOf]
      intro hpc
      exact absurd hpc.symm hc
    rw [if_neg (by simp), if_neg (by rw [hpre]; simp)]
    rw [ih hrest]
    simp

theorem connString_template (u p lp : String) (hu : '<' ∉ u.data) (hp : '<' ∉ p.data) :
    connString (cockroachDns u p) lp
      = "postgresql://" ++ u ++ ":" ++ p ++ "@localhost:" ++ lp ++ "/system?sslmode=disable" := by
  have f1 : ∀ c ∈ ("postgresql://" : String).data, c ≠ '<' := by decide
  have f2 : ∀ c ∈ (":" : String).data, c ≠ '<' := by decide
  have f3 : ∀ c ∈ ("@localhost:" : String).data, c ≠ '<' := by decide
  have hxs : ∀ c ∈ (("postgresql://" : String).data ++ u.data ++ (":" : String).data
      ++ p.data ++ ("@localhost:" : String).data), c ≠ '<' := by
    intro c hcm
    simp only [List.mem_append] at hcm
    rcases hcm with ((((h1 | h2) | h3) | h4) | h5)
    · exact f1 c h1
    · intro hq; rw [hq] at h2; exact hu h2
    · exact f2 c h3
    · intro hq; rw [hq] at h4; exact hp h4
    · exact f3 c h5
  have hpat : ("<local_port>" : String).data = '<' :: ("local_port>" : String).data := rfl
  have key := goReplaceOnceList_seek '<' ("local_port>" : String).data lp.data
    ("/system?sslmode=disable" : String).data
    (("postgresql://" : String).data ++ u.data ++ (":" : String).data
      ++ p.data ++ ("@localhost:" : String).data) hxs
  apply String.ext
  show goReplaceOnceList (cockroachDns u p).data ("<local_port>" : String).data lp.data = _
  have hdata : (cockroachDns u p).data
      = (("postgresql://" : String).data ++ u.data ++ (":" : String).data
          ++ p.data ++ ("@localhost:" : String).data)
        ++ ('<' :: ("local_port>" : String).data)
        ++ ("/system?sslmode=disable" : String).data := by
    simp only [cockroachDns, String.data_append, List.append_assoc, List.append_right_inj]
    decide
  rw [hdata, hpat, key]
  simp [String.data_append, List.append_assoc]

theorem connect_not_in_dbCreateConn (a : DatabaseAttrs) (o : Oracle) (d : String) :
    Event.connect d ∉ (resourceDatabaseCreateConn a o).2 := by
  rcases o with ⟨oc, op, oe, oq, os⟩
  unfold resourceDatabaseCreateConn
  cases oc <;> cases op <;> cases h0 : oe 0 <;> cases h1 : oe 1 <;> cases oq <;> simp [h0, h1]

theorem connect_not_in_userCreateConn (u : UserAttrs) (o : Oracle) (d : String) :
    Event.connect d ∉ (resourceUserCreateConn u o).2 := by
  rcases o with ⟨oc, op, oe, oq, os⟩
  unfold resourceUserCreateConn
  cases oc <;> cases op <;> cases h0 : oe 0 <;> cases h1 : oe 1 <;> cases hA : u.isAdmin <;>
    simp [h0, h1, hA]

theorem connect_not_in_userUpdateChanged (u : UserUpdateAttrs) (o : Oracle) (d : String) :
    Event.connect d ∉ (resourceUserUpdateChanged u o).2 := by
  rcases o with ⟨oc, op, oe, oq, os⟩
  unfold resourceUserUpdateChanged
  by_cases hpw : u.newPassword = "" <;>
    cases h0 : oe 0 <;> cases h1 : oe 1 <;> cases h2 : oe 2 <;>
    cases hoa : u.oldAdmin <;> cases hna : u.newAdmin <;> simp [hpw, h0, h1, h2, hoa, hna]

theorem connect_not_in_userUpdateConn (u : UserUpdateAttrs) (o : Oracle) (d : String) :
    Event.connect d ∉ (resourceUserUpdateConn u o).2 := by
  have hch := connect_not_in_userUpdateChanged u o d
  rcases hco : resourceUserUpdateChanged u o with ⟨out, evs⟩
  rw [hco] at hch
  simp only at hch
  rcases o with ⟨oc, op, oe, oq, os⟩
  unfold resourceUserUpdateConn
  cases oc <;> cases op <;> simp only [hco] <;> cases out <;> (try split) <;> simp [hch]

theorem connect_not_in_dsReadConn (n : String) (o : Oracle) (d : String) :
    Event.connect d ∉ (dataSourceDatabaseReadConn n o).2 := by
  rcases o with ⟨oc, op, oe, oq, os⟩
  unfold dataSourceDatabaseReadConn
  cases oc <;> cases op <;> cases oq <;> cases hn : os "name" <;> cases ho : os "owner" <;>
    simp [hn, ho]

theorem connect_not_in_pf (client : CockroachClient) (lp d : String) :
    Event.connect d ∉ tryPortForwardIfNeeded client lp := by
  unfold tryPortForwardIfNeeded
  split <;> simp

theorem connect_mem_run (pf tail : List Event) (dns d : String)
    (hpf : Event.connect d ∉ pf) (htail : Event.connect d ∉ tail) :
    Event.connect d ∈ pf ++ Event.connect dns :: tail → d = dns := by
  intro hm
  rcases List.mem_append.mp hm with h | h
  · exact absurd h hpf
  · rcases List.mem_cons.mp h with h | h
    · injection h
    · exact absurd h htail

/-- C6: in every modelled CRUD operation, the connection string handed to
`pgx.Connect` is exactly the client's dns with the first occurrence of the
placeholder `<local_port>` replaced by the operation's local_port attribute
(`strings.Replace(dns, "<local_port>", local_port, 1)`); and for the dns the
kube-mode `configure` builds, that substitution yields precisely
`postgresql://<username>:<password>@localhost:<local_port>/system?sslmode=disable`
with the placeholder replaced, whenever username and password do not
themselves contain `<`. -/
theorem c6_connection_string (client : CockroachClient) (o : Oracle) :
    (∀ a d, Event.connect d ∈ (resourceDatabaseCreate client a o).events →
      d = connString client.dns a.localPort) ∧
    (∀ u d, Event.connect d ∈ (resourceUserCreate client u o).events →
      d = connString client.dns u.localPort) ∧
    (∀ u d, Event.connect d ∈ (resourceUserUpdate client u o).events →
      d = connString client.dns u.localPort) ∧
    (∀ n lp d, Event.connect d ∈ (dataSourceDatabaseRead client n lp o).events →
      d = connString client.dns lp) ∧
    (∀ u p lp, '<' ∉ u.data → '<' ∉ p.data →
      connString (cockroachDns u p) lp
        = "postgresql://" ++ u ++ ":" ++ p ++ "@localhost:" ++ lp
          ++ "/system?sslmode=disable") := by
  refine ⟨?_, ?_, ?_, ?_, fun u p lp hu hp => connString_template u p lp hu hp⟩
  · intro a d hm
    by_cases hn : a.name = ""
    · simp [resourceDatabaseCreate, hn] at hm
    · rcases hco : resourceDatabaseCreateConn a o with ⟨out, tail⟩
      simp only [resourceDatabaseCreate, if_neg hn, hco] at hm
      refine connect_mem_run _ _ _ _ (connect_not_in_pf client a.localPort d) ?_ hm
      have h2 := connect_not_in_dbCreateConn a o d
      rw [hco] at h2
      exact h2
  · intro u d hm
    by_cases hl : u.localPort = ""
    · simp [resourceUserCreate, hl] at hm
    · by_cases hu : u.username = ""
      · simp [resourceUserCreate, hl, hu] at hm
      · by_cases hp : u.password = ""
        · simp [resourceUserCreate, hl, hu, hp] at hm
        · rcases hco : resourceUserCreateConn u o with ⟨out, tail⟩
          simp only [resourceUserCreate, if_neg hl, if_neg hu, if_neg hp, hco] at hm
          refine connect_mem_run _ _ _ _ (connect_not_in_pf client u.localPort d) ?_ hm
          have h2 := connect_not_in_userCreateConn u o d
          rw [hco] at h2
          exact h2
  · intro u d hm
    by_cases hl : u.localPort = ""
    · simp [resourceUserUpdate, hl] at hm
    · rcases hco : resourceUserUpdateConn u o with ⟨out, tail⟩
      simp only [resourceUserUpdate, if_neg hl, hco] at hm
      refine connect_mem_run _ _ _ _ (connect_not_in_pf client u.localPort d) ?_ hm
      have h2 := connect_not_in_userUpdateConn u o d
      rw [hco] at h2
      exact h2
  · intro n lp d hm
    rcases hco : dataSourceDatabaseReadConn n o with ⟨out, tail⟩
    simp only [dataSourceDatabaseRead, hco] at hm
    refine connect_mem_run _ _ _ _ (connect_not_in_pf client lp d) ?_ hm
    have h2 := connect_not_in_dsReadConn n o d
    rw [hco] at h2
    exact h2

/-- Witness for C6: the template substitution at concrete credentials and
port. -/
theorem c6_connection_string_witness :
    connString (cockroachDns "master" "pw") "26258"
      = "postgresql://" ++ "master" ++ ":" ++ "pw" ++ "@localhost:" ++ "26258"
        ++ "/system?sslmode=disable" :=
  (c6_connection_string
    { dns := "", username := "", password := "", kubePresent := false,
      nameSpace := "", serviceName := "", remotePort := "" }
    { connect := none, ping := none, exec := fun _ => none, query := none,
      set := fun _ => none }).2.2.2.2 "master" "pw" "26258" (by decide) (by decide)

/-- C9: the SQL statement `resourceUserCreate` executes is exactly
`CREATE USER ` + QuoteIdentifier(username) + ` WITH PASSWORD '` + password +
`' ` + roles — the username identifier-quoted, the password and roles
inserted verbatim with no quoting or escaping — and `resourceUserUpdate`
likewise executes exactly `ALTER USER ` + QuoteIdentifier(id) +
` WITH PASSWORD '` + newPassword + `' ` + newRoles. -/
theorem c9_user_sql_statements (client : CockroachClient) (o : Oracle) :
    (∀ u : UserAttrs, u.localPort ≠ "" → u.username ≠ "" → u.password ≠ "" →
      o.connect = none → o.ping = none →
      Event.exec ("CREATE USER " ++ quoteIdentifier u.username ++ " WITH PASSWORD '" ++
        u.password ++ "' " ++ u.roles) ∈ (resourceUserCreate client u o).events) ∧
    (∀ u : UserUpdateAttrs, u.localPort ≠ "" →
      o.connect = none → o.ping = none →
      (u.oldAdmin != u.newAdmin || u.oldRoles != u.newRoles ||
        u.oldPassword != u.newPassword) = true →
      u.newPassword ≠ "" →
      Event.exec ("ALTER USER " ++ quoteIdentifier u.id ++ " WITH PASSWORD '" ++
        u.newPassword ++ "' " ++ u.newRoles) ∈ (resourceUserUpdate client u o).events) := by
  constructor
  · intro u hl hu hp hc hpi
    simp only [resourceUserCreate, if_neg hl, if_neg hu, if_neg hp]
    cases h0 : o.exec 0 <;> cases h1 : o.exec 1 <;> cases hA : u.isAdmin <;>
      simp [resourceUserCreateConn, hc, hpi, h0, h1, hA]
  · intro u hl hc hpi hch hpw
    simp only [resourceUserUpdate, if_neg hl]
    cases h0 : o.exec 0 <;> cases h1 : o.exec 1 <;> cases h2 : o.exec 2 <;>
      cases hoa : u.oldAdmin <;> cases hna : u.newAdmin <;>
      simp_all [resourceUserUpdateConn, resourceUserUpdateChanged]

/-- Witness for C9 at a concrete user: the executed statement, with the
username quoted and the password and roles verbatim. -/
theorem c9_user_sql_statements_witness :
    Event.exec ("CREATE USER " ++ quoteIdentifier "bob" ++ " WITH PASSWORD '" ++
        "p4ss" ++ "' " ++ "SQLLOGIN")
      ∈ (resourceUserCreate
          { dns := cockroachDns "master" "pw", username := "master", password := "pw",
            kubePresent := true, nameSpace := "crdb", serviceName := "cockroachdb",
            remotePort := "26257" }
          { username := "bob", password := "p4ss", roles := "SQLLOGIN", isAdmin := false,
            localPort := "26257" }
          { connect := none, ping := none, exec := fun _ => none, query := none,
            set := fun _ => none }).events :=
  (c9_user_sql_statements _ _).1 _ (by decide) (by decide) (by decide) rfl rfl

end Crdb
